import Mathlib

/-!
Verification of the OCCI storage backend adapter
(`occi_os_api/backends/storage.py`).

The Python handlers mutate an entity's attribute dictionary in place and
raise exceptions on failure.  We embed them as pure functions: attribute
dictionaries become association lists, in-place mutation becomes explicit
state passing, raised exceptions become an `Option BackendError` field of
the result, and every call into the external platform (Nova volume / VM
API, OCCI registry) is both driven by an oracle (`Platform`) and recorded
in an explicit trace of `PlatformCall`s.  Python semantics preserved:
exceptions abort the remaining statements but keep all mutations already
applied, and dictionary access of a missing key is a `KeyError`.
-/

set_option autoImplicit false

/-- Attribute dictionaries of OCCI entities: string keys to string values. -/
abbrev Attributes := List (String × String)

/-- First value bound to key `k`, `none` when absent (`dict.get`). -/
def Attributes.get1 : Attributes → String → Option String
  | [], _ => none
  | (k0, v0) :: rest, k => if k0 = k then some v0 else Attributes.get1 rest k

/-- Python membership test `k in d`. -/
def Attributes.member (a : Attributes) (k : String) : Bool :=
  (a.get1 k).isSome

/-- Python `d[k] = v`: overwrite the first binding of `k`, or append. -/
def Attributes.set1 : Attributes → String → String → Attributes
  | [], k, v => [(k, v)]
  | (k0, v0) :: rest, k, v =>
      if k0 = k then (k, v) :: rest else (k0, v0) :: Attributes.set1 rest k v

/-- Python `len(d)` (number of bindings; keys are distinct in every run). -/
def Attributes.size (a : Attributes) : Nat :=
  List.length a

/-- The OCCI infrastructure actions that appear in the storage backend. -/
inductive OcciAction
  | online
  | offline
  | backup
  | snapshot
  | resize
  deriving DecidableEq, Repr

/-- An OCCI resource entity as mutated by the backend: attribute
dictionary, externally visible identifier, allowed-actions list. -/
structure Entity where
  attributes : Attributes
  identifier : String
  actions : List OcciAction
  deriving DecidableEq, Repr

/-- Volume record returned by the platform (`{id, display_name, size, status}`). -/
structure VolumeRecord where
  id : String
  display_name : String
  size : Nat
  status : String

/-- Exceptions raised by the backend code. -/
inductive BackendError
  | attributeError (msg : String)
  | httpError (code : Nat) (msg : String)
  | keyError (key : String)
  deriving DecidableEq, Repr

/-- One call into an external collaborator, recorded in order. -/
inductive PlatformCall
  | createStorage (size name : String)
  | getStorage (volId : String)
  | deleteStorage (volId : String)
  | snapshotStorage (volId name description : String)
  | attachVolume (instanceId volId : String) (deviceId : Option String)
  | detachVolume (instanceId volId : String)
  | registryGet (path : String)
  deriving DecidableEq, Repr

/-- Oracle for the external collaborators: what each platform call returns.
`registryFound p` stands for `registry.get_resource p` returning normally;
`false` stands for it raising the not-found `KeyError`. -/
structure Platform where
  create_storage : String → String → VolumeRecord
  get_storage : String → VolumeRecord
  attach_volume : String → String → Option String → String
  registryFound : String → Bool

/-- Result of one backend handler call: the entity as mutated so far, the
trace of platform calls made, and the exception raised, if any. -/
structure StepResult where
  entity : Entity
  calls : List PlatformCall
  error : Option BackendError
  deriving DecidableEq

/-- `occi.extensions.infrastructure.STORAGE.location` (the storage
collection path prefix). -/
def STORAGE_location : String := "/storage/"

/-- `occi.extensions.infrastructure.STORAGELINK.location` (the storagelink
collection path prefix). -/
def STORAGELINK_location : String := "/storagelink/"

namespace StorageBackend

/-- The `size` argument `create` passes to `create_storage` (read after the
presence check; the default is never used on the path where it is read). -/
def createSizeArg (entity : Entity) : String :=
  (entity.attributes.get1 "occi.storage.size").getD ""

/-- The `name` argument `create` passes to `create_storage`:
`str(uuid.uuid4())` when `occi.core.title` is absent, else the title value
(even when it is the empty string). -/
def createNameArg (freshUuid : String) (entity : Entity) : String :=
  if ¬ entity.attributes.member "occi.core.title" then freshUuid
  else (entity.attributes.get1 "occi.core.title").getD ""

/-- The platform-assigned volume id: the `id` field of the
`create_storage` response. -/
def createVolId (p : Platform) (freshUuid : String) (entity : Entity) : String :=
  (p.create_storage (createSizeArg entity) (createNameArg freshUuid entity)).id

/-- The re-fetched volume record: `get_storage` applied to the id of the
`create_storage` response. -/
def createRefetched (p : Platform) (freshUuid : String) (entity : Entity) : VolumeRecord :=
  p.get_storage (createVolId p freshUuid entity)

/-- `StorageBackend.create`.  `freshUuid` stands for the value of
`str(uuid.uuid4())` drawn in this call. -/
def create (p : Platform) (freshUuid : String) (entity : Entity) : StepResult :=
  if ¬ entity.attributes.member "occi.storage.size" then
    { entity := entity, calls := [],
      error := some (.attributeError "size attribute not found!") }
  else
    let size := createSizeArg entity
    let name := createNameArg freshUuid entity
    let vol_id := createVolId p freshUuid entity
    let new_volume := createRefetched p freshUuid entity
    let calls := [PlatformCall.createStorage size name, PlatformCall.getStorage vol_id]
    if new_volume.status = "error" then
      { entity := entity, calls := calls,
        error := some (.httpError 500 "There was an error creating the volume") }
    else
      let entity := { entity with
        attributes := entity.attributes.set1 "occi.core.id" vol_id,
        identifier := STORAGE_location ++ vol_id }
      let entity :=
        if new_volume.status = "available" then
          { entity with
            attributes := entity.attributes.set1 "occi.storage.state" "active" }
        else entity
      let entity := { entity with
        actions := [OcciAction.offline, OcciAction.backup,
                    OcciAction.snapshot, OcciAction.resize] }
      { entity := entity, calls := calls, error := none }

/-- Python `str(float(n))` for the integral volume size `n`. -/
def floatStr (n : Nat) : String := toString n ++ ".0"

/-- `StorageBackend.retrieve`. -/
def retrieve (p : Platform) (entity : Entity) : StepResult :=
  match entity.attributes.get1 "occi.core.id" with
  | none =>
      { entity := entity, calls := [], error := some (.keyError "occi.core.id") }
  | some v_id =>
      let volume := p.get_storage v_id
      let a := entity.attributes.set1 "occi.core.title" volume.display_name
      let a := a.set1 "occi.storage.size" (floatStr volume.size)
      if volume.status = "available" ∨ volume.status = "in-use" then
        { entity := { entity with
            attributes := a.set1 "occi.storage.state" "online",
            actions := [OcciAction.offline, OcciAction.backup,
                        OcciAction.snapshot, OcciAction.resize] },
          calls := [PlatformCall.getStorage v_id], error := none }
      else
        { entity := { entity with
            attributes := a.set1 "occi.storage.state" "offline",
            actions := [OcciAction.online] },
          calls := [PlatformCall.getStorage v_id], error := none }

/-- `StorageBackend.update`.  Mirrors the two conditionals of the source,
including the short-circuit of the Python `and`: when
`occi.core.title` is in `new` the second conditional reads
`new.attributes[\x27occi.core.summary\x27]` unconditionally, which is a
`KeyError` when the summary is absent. -/
def update (old new : Attributes) : Attributes × Option BackendError :=
  if new.size > 0 then
    let old :=
      match new.get1 "occi.core.title" with
      | some t => if t.length > 0 then old.set1 "occi.core.title" t else old
      | none => old
    match new.get1 "occi.core.title", new.get1 "occi.core.summary" with
    | some _, some s =>
        if s.length > 0 then (old.set1 "occi.core.summary" s, none) else (old, none)
    | some _, none => (old, some (.keyError "occi.core.summary"))
    | none, _ => (old, none)
  else (old, none)

/-- `StorageBackend.delete`. -/
def delete (entity : Entity) : StepResult :=
  match entity.attributes.get1 "occi.core.id" with
  | none =>
      { entity := entity, calls := [], error := some (.keyError "occi.core.id") }
  | some volume_id =>
      { entity := entity, calls := [PlatformCall.deleteStorage volume_id],
        error := none }

/-- `StorageBackend.action`.  `todayIso` stands for
`date.today().isoformat()` at this call. -/
def action (todayIso : String) (entity : Entity) (act : OcciAction) : StepResult :=
  if act ∉ entity.actions then
    { entity := entity, calls := [],
      error := some (.attributeError "This action is currently no applicable.") }
  else if act = .online ∨ act = .offline ∨ act = .backup ∨ act = .resize then
    { entity := entity, calls := [], error := none }
  else if act = .snapshot then
    match entity.attributes.get1 "occi.core.id" with
    | none =>
        { entity := entity, calls := [], error := some (.keyError "occi.core.id") }
    | some volume_id =>
        let name := volume_id ++ todayIso
        let description := (entity.attributes.get1 "occi.core.summary").getD "N/A"
        { entity := entity,
          calls := [PlatformCall.snapshotStorage volume_id name description],
          error := none }
  else
    { entity := entity, calls := [], error := none }

end StorageBackend

/-- An OCCI link entity: source and target resources, its own attribute
dictionary and identifier. -/
structure Link where
  source : Entity
  target : Entity
  attributes : Attributes
  identifier : String
  deriving DecidableEq, Repr

/-- Result of one link handler call. -/
structure LinkStepResult where
  link : Link
  calls : List PlatformCall
  error : Option BackendError
  deriving DecidableEq, Repr

namespace StorageLinkBackend

/-- `StorageLinkBackend.create`.  The `try/except KeyError` around
`registry.get_resource` is rendered by branching on
`p.registryFound`: `false` is the caught not-found failure. -/
def create (p : Platform) (link : Link) : LinkStepResult :=
  let volume_id := (link.target.attributes.get1 "occi.core.id").getD ""
  let instance_id := (link.source.attributes.get1 "occi.core.id").getD ""
  let link_id := instance_id ++ "_" ++ volume_id
  let link := { link with identifier := STORAGELINK_location ++ link_id }
  let link := { link with attributes := link.attributes.set1 "occi.core.id" link_id }
  let link := { link with
    attributes := link.attributes.set1 "occi.storagelink.state" "active" }
  let path := "/compute/" ++ instance_id
  if p.registryFound path then
    let device_id := link.attributes.get1 "occi.storagelink.deviceid"
    let device_name := p.attach_volume instance_id volume_id device_id
    { link := { link with
        attributes := link.attributes.set1 "occi.storagelink.deviceid" device_name },
      calls := [PlatformCall.registryGet path,
                PlatformCall.attachVolume instance_id volume_id device_id],
      error := none }
  else
    { link := link, calls := [PlatformCall.registryGet path], error := none }

/-- `StorageLinkBackend.delete`. -/
def delete (link : Link) : LinkStepResult :=
  match link.source.attributes.get1 "occi.core.id" with
  | none =>
      { link := link, calls := [], error := some (.keyError "occi.core.id") }
  | some instance_id =>
      match link.target.attributes.get1 "occi.core.id" with
      | none =>
          { link := link, calls := [], error := some (.keyError "occi.core.id") }
      | some volume_id =>
          { link := link,
            calls := [PlatformCall.getStorage volume_id,
                      PlatformCall.detachVolume instance_id volume_id],
            error := none }

end StorageLinkBackend

/-! Concrete fixtures used to instantiate the universally quantified
theorems below (witnesses and counterexamples). -/

/-- A platform whose re-fetched volumes are in status `error`. -/
def errPlatform : Platform where
  create_storage := fun _ _ =>
    { id := "v1", display_name := "vol", size := 1, status := "creating" }
  get_storage := fun i =>
    { id := i, display_name := "vol", size := 1, status := "error" }
  attach_volume := fun _ _ _ => "/dev/vdb"
  registryFound := fun _ => false

/-- A platform whose re-fetched volumes are `available` and whose registry
holds every resource. -/
def okPlatform : Platform where
  create_storage := fun _ _ =>
    { id := "v1", display_name := "vol", size := 1, status := "creating" }
  get_storage := fun i =>
    { id := i, display_name := "vol", size := 1, status := "available" }
  attach_volume := fun _ _ _ => "/dev/vdb"
  registryFound := fun _ => true

/-- A platform whose re-fetched volumes stay in status `creating`. -/
def creatingPlatform : Platform where
  create_storage := fun _ _ =>
    { id := "v1", display_name := "vol", size := 1, status := "creating" }
  get_storage := fun i =>
    { id := i, display_name := "vol", size := 1, status := "creating" }
  attach_volume := fun _ _ _ => "/dev/vdb"
  registryFound := fun _ => true

/-- An entity carrying only a size (title absent). -/
def sizedEntity : Entity :=
  { attributes := [("occi.storage.size", "1")], identifier := "", actions := [] }

/-- An entity with a size and a present-but-empty title. -/
def emptyTitleEntity : Entity :=
  { attributes := [("occi.storage.size", "1"), ("occi.core.title", "")],
    identifier := "", actions := [] }

/-- An entity without the size attribute. -/
def noSizeEntity : Entity :=
  { attributes := [("occi.core.title", "t")], identifier := "id0", actions := [] }

/-- An entity with size, a pre-existing state value and a stale id. -/
def statefulEntity : Entity :=
  { attributes := [("occi.storage.size", "1"), ("occi.storage.state", "stale")],
    identifier := "old-identifier", actions := [OcciAction.online] }

/-- An entity already bound to volume `v1`, in a prior offline OCCI state. -/
def idEntity : Entity :=
  { attributes := [("occi.core.id", "v1"), ("occi.storage.state", "offline")],
    identifier := "", actions := [OcciAction.online] }

/-- An entity bound to volume `v1` whose allowed actions include snapshot
and whose summary is absent. -/
def snapEntity : Entity :=
  { attributes := [("occi.core.id", "v1")], identifier := "",
    actions := [OcciAction.offline, OcciAction.backup,
                OcciAction.snapshot, OcciAction.resize] }

/-- The update fixture of the spec: old holds title `A` and summary `S`. -/
def updOld : Attributes := [("occi.core.title", "A"), ("occi.core.summary", "S")]

/-- The update fixture of the spec: new holds only title `B`. -/
def updNew : Attributes := [("occi.core.title", "B")]

/-- A link from compute `i1` to volume `v1` with a requested device id. -/
def linkFixture : Link :=
  { source := { attributes := [("occi.core.id", "i1")], identifier := "", actions := [] },
    target := { attributes := [("occi.core.id", "v1")], identifier := "", actions := [] },
    attributes := [("occi.storagelink.deviceid", "/dev/requested")],
    identifier := "" }

/-! Lemmas about the attribute dictionary. -/

/-- Looking up the key just written returns the written value. -/
@[simp]
theorem Attributes.get1_set1_self (a : Attributes) (k v : String) :
    (a.set1 k v).get1 k = some v := by
  induction a with
  | nil => simp [Attributes.set1, Attributes.get1]
  | cons hd rest ih =>
      obtain ⟨k0, v0⟩ := hd
      by_cases h : k0 = k <;> simp [Attributes.set1, Attributes.get1, h, ih]

/-- Writing one key leaves every other key's lookup unchanged. -/
theorem Attributes.get1_set1_other (a : Attributes) (k q v : String) (h : q ≠ k) :
    (a.set1 k v).get1 q = a.get1 q := by
  induction a with
  | nil => simp [Attributes.set1, Attributes.get1, Ne.symm h]
  | cons hd rest ih =>
      obtain ⟨k0, v0⟩ := hd
      by_cases hk : k0 = k
      · subst hk
        simp [Attributes.set1, Attributes.get1, Ne.symm h]
      · by_cases hq : k0 = q <;>
          simp [Attributes.set1, Attributes.get1, hk, hq, ih, h]

/-- The name argument of `create` in closed form: the title when present
(even empty), the fresh uuid when absent. -/
theorem StorageBackend.createNameArg_eq_getD (u : String) (e : Entity) :
    StorageBackend.createNameArg u e =
      (e.attributes.get1 "occi.core.title").getD u := by
  unfold StorageBackend.createNameArg
  cases h : e.attributes.get1 "occi.core.title" <;>
    simp [Attributes.member, h]

/-- C5: a create call on an entity lacking `occi.storage.size` raises the
AttributeError validation failure, makes no platform call, and leaves the
entity (its attributes included) unmodified. -/
theorem StorageBackend.create_missing_size (p : Platform) (u : String) (e : Entity)
    (h : e.attributes.member "occi.storage.size" = false) :
    StorageBackend.create p u e =
      { entity := e, calls := [],
        error := some (BackendError.attributeError "size attribute not found!") } := by
  simp [StorageBackend.create, h]

/-- Witness for C5 at a concrete size-less entity. -/
theorem StorageBackend.create_missing_size_witness :
    StorageBackend.create okPlatform "u0" noSizeEntity =
      { entity := noSizeEntity, calls := [],
        error := some (BackendError.attributeError "size attribute not found!") } :=
  StorageBackend.create_missing_size okPlatform "u0" noSizeEntity (by decide)

/-- C6: an action call whose action is not in the entity's current
allowed-actions list raises the AttributeError validation failure and makes
no platform call. -/
theorem StorageBackend.action_not_applicable (t : String) (e : Entity) (act : OcciAction)
    (h : act ∉ e.actions) :
    StorageBackend.action t e act =
      { entity := e, calls := [],
        error := some (BackendError.attributeError "This action is currently no applicable.") } := by
  simp [StorageBackend.action, h]

/-- Witness for C6: snapshot requested while only online is allowed. -/
theorem StorageBackend.action_not_applicable_witness :
    StorageBackend.action "2026-10-12" idEntity OcciAction.snapshot =
      { entity := idEntity, calls := [],
        error := some (BackendError.attributeError "This action is currently no applicable.") } :=
  StorageBackend.action_not_applicable "2026-10-12" idEntity OcciAction.snapshot (by decide)

/-- C7: an allowed snapshot action makes exactly one platform call, the
snapshot-creation call, whose name is the volume id concatenated with the
current ISO date and whose description is the summary when present and the
literal N/A otherwise. -/
theorem StorageBackend.action_snapshot_call (t : String) (e : Entity) (volId : String)
    (hact : OcciAction.snapshot ∈ e.actions)
    (hid : e.attributes.get1 "occi.core.id" = some volId) :
    StorageBackend.action t e OcciAction.snapshot =
      { entity := e,
        calls := [PlatformCall.snapshotStorage volId (volId ++ t)
          ((e.attributes.get1 "occi.core.summary").getD "N/A")],
        error := none } := by
  simp [StorageBackend.action, hact, hid]

/-- Witness for C7 at a concrete entity without a summary. -/
theorem StorageBackend.action_snapshot_call_witness :
    StorageBackend.action "2026-10-12" snapEntity OcciAction.snapshot =
      { entity := snapEntity,
        calls := [PlatformCall.snapshotStorage "v1" "v12026-10-12" "N/A"],
        error := none } :=
  StorageBackend.action_snapshot_call "2026-10-12" snapEntity "v1" (by decide) (by decide)

/-- C1 counterexample: a create call whose re-fetched volume has status
error fails with the HTTP 500 error, yet `occi.core.id` is NOT set at the
moment of failure, contradicting the claim that the attribute write
precedes the status check. -/
theorem StorageBackend.create_error_id_unset_cex :
    (StorageBackend.createRefetched errPlatform "u0" sizedEntity).status = "error" ∧
    (StorageBackend.create errPlatform "u0" sizedEntity).error =
      some (BackendError.httpError 500 "There was an error creating the volume") ∧
    (StorageBackend.create errPlatform "u0" sizedEntity).entity.attributes.get1
      "occi.core.id" = none := by
  decide

/-- C1 amended: a create call whose re-fetched volume has status error
fails with the HTTP 500 error after exactly the two volume calls, and the
entity is left entirely unmodified (in particular `occi.core.id` has not
been written: the status check precedes the attribute write). -/
theorem StorageBackend.create_error_leaves_entity (p : Platform) (u : String) (e : Entity)
    (hsize : e.attributes.member "occi.storage.size" = true)
    (herr : (StorageBackend.createRefetched p u e).status = "error") :
    StorageBackend.create p u e =
      { entity := e,
        calls := [PlatformCall.createStorage (StorageBackend.createSizeArg e)
                    (StorageBackend.createNameArg u e),
                  PlatformCall.getStorage (StorageBackend.createVolId p u e)],
        error := some (BackendError.httpError 500 "There was an error creating the volume") } := by
  simp [StorageBackend.create, hsize, herr]

/-- Witness for the amended C1 at the error platform. -/
theorem StorageBackend.create_error_leaves_entity_witness :
    StorageBackend.create errPlatform "u0" sizedEntity =
      { entity := sizedEntity,
        calls := [PlatformCall.createStorage "1" "u0", PlatformCall.getStorage "v1"],
        error := some (BackendError.httpError 500 "There was an error creating the volume") } :=
  StorageBackend.create_error_leaves_entity errPlatform "u0" sizedEntity
    (by decide) (by decide)

/-- C2: evaluating update on the claim's input (old holds title A and
summary S, new holds only title B) raises a KeyError on the missing
`occi.core.summary` instead of completing normally; the title has already
been overwritten when the error occurs. -/
theorem StorageBackend.update_missing_summary_keyError :
    StorageBackend.update updOld updNew =
      ([("occi.core.title", "B"), ("occi.core.summary", "S")],
        some (BackendError.keyError "occi.core.summary")) := by
  decide

/-- C3: the OCCI state and allowed-actions list produced by retrieve are a
function of the platform-reported status alone: available or in-use gives
online with the four actions, anything else gives offline with online
only, whatever the entity's prior state and actions were. -/
theorem StorageBackend.retrieve_state_pure (p : Platform) (e : Entity) (v_id : String)
    (hid : e.attributes.get1 "occi.core.id" = some v_id) :
    (StorageBackend.retrieve p e).error = none ∧
    ((StorageBackend.retrieve p e).entity.attributes.get1 "occi.storage.state",
      (StorageBackend.retrieve p e).entity.actions) =
    (if (p.get_storage v_id).status = "available" ∨ (p.get_storage v_id).status = "in-use"
     then (some "online",
           [OcciAction.offline, OcciAction.backup, OcciAction.snapshot, OcciAction.resize])
     else (some "offline", [OcciAction.online])) := by
  unfold StorageBackend.retrieve
  rw [hid]
  by_cases hst : (p.get_storage v_id).status = "available" ∨
      (p.get_storage v_id).status = "in-use" <;>
    simp [hst]

/-- Witness for C3 at an available volume and a previously offline entity. -/
theorem StorageBackend.retrieve_state_pure_witness :
    (StorageBackend.retrieve okPlatform idEntity).error = none ∧
    ((StorageBackend.retrieve okPlatform idEntity).entity.attributes.get1 "occi.storage.state",
      (StorageBackend.retrieve okPlatform idEntity).entity.actions) =
    (if (okPlatform.get_storage "v1").status = "available" ∨
        (okPlatform.get_storage "v1").status = "in-use"
     then (some "online",
           [OcciAction.offline, OcciAction.backup, OcciAction.snapshot, OcciAction.resize])
     else (some "offline", [OcciAction.online])) :=
  StorageBackend.retrieve_state_pure okPlatform idEntity "v1" (by decide)

/-- C4 counterexample: with the title present but empty, the name passed
to the create-volume call is the empty title, not the fresh random
identifier the claim predicts. -/
theorem StorageBackend.create_empty_title_name_cex :
    (StorageBackend.create okPlatform "fresh-uuid" emptyTitleEntity).calls =
      [PlatformCall.createStorage "1" "", PlatformCall.getStorage "v1"] ∧
    ("" : String) ≠ "fresh-uuid" := by
  decide

/-- C4 amended: the name passed to the create-volume call is the title
whenever `occi.core.title` is present, even when it is empty, and the
freshly generated identifier exactly when the attribute is absent. -/
theorem StorageBackend.create_name_choice (p : Platform) (u : String) (e : Entity)
    (hsize : e.attributes.member "occi.storage.size" = true) :
    (StorageBackend.create p u e).calls.head? =
      some (PlatformCall.createStorage (StorageBackend.createSizeArg e)
        ((e.attributes.get1 "occi.core.title").getD u)) := by
  rw [← StorageBackend.createNameArg_eq_getD]
  unfold StorageBackend.create
  simp [hsize]
  split <;> rfl

/-- Witness for the amended C4: title absent, so the fresh uuid is used. -/
theorem StorageBackend.create_name_choice_witness :
    (StorageBackend.create okPlatform "fresh-uuid" sizedEntity).calls.head? =
      some (PlatformCall.createStorage "1" "fresh-uuid") :=
  StorageBackend.create_name_choice okPlatform "fresh-uuid" sizedEntity (by decide)

/-- C8: link creation from compute i1 to volume v1 with a failed registry
lookup sets the joined link id, the storagelink identifier and the active
state, makes only the registry call (no attach), and raises no error. -/
theorem StorageLinkBackend.create_registry_miss (p : Platform) (l : Link)
    (hsrc : l.source.attributes.get1 "occi.core.id" = some "i1")
    (htgt : l.target.attributes.get1 "occi.core.id" = some "v1")
    (hreg : p.registryFound "/compute/i1" = false) :
    (StorageLinkBackend.create p l).error = none ∧
    (StorageLinkBackend.create p l).link.attributes.get1 "occi.core.id" = some "i1_v1" ∧
    (StorageLinkBackend.create p l).link.identifier = STORAGELINK_location ++ "i1_v1" ∧
    (StorageLinkBackend.create p l).link.attributes.get1 "occi.storagelink.state" =
      some "active" ∧
    (StorageLinkBackend.create p l).calls = [PlatformCall.registryGet "/compute/i1"] := by
  have hjoin : "i1" ++ "_" ++ "v1" = "i1_v1" := rfl
  have hpath : "/compute/" ++ "i1" = "/compute/i1" := rfl
  have hne : ("occi.core.id" : String) ≠ "occi.storagelink.state" := by decide
  unfold StorageLinkBackend.create
  rw [hsrc, htgt]
  simp [hjoin, hpath, hreg, Attributes.get1_set1_other _ _ _ _ hne]

/-- Witness for C8 at the concrete link fixture and the empty registry. -/
theorem StorageLinkBackend.create_registry_miss_witness :
    (StorageLinkBackend.create errPlatform linkFixture).error = none ∧
    (StorageLinkBackend.create errPlatform linkFixture).link.attributes.get1 "occi.core.id" =
      some "i1_v1" ∧
    (StorageLinkBackend.create errPlatform linkFixture).link.identifier =
      STORAGELINK_location ++ "i1_v1" ∧
    (StorageLinkBackend.create errPlatform linkFixture).link.attributes.get1
      "occi.storagelink.state" = some "active" ∧
    (StorageLinkBackend.create errPlatform linkFixture).calls =
      [PlatformCall.registryGet "/compute/i1"] :=
  StorageLinkBackend.create_registry_miss errPlatform linkFixture
    (by decide) (by decide) (by decide)

/-- C9: when the registry lookup succeeds and the platform attach call
returns device name dn whatever device id is requested, the link ends with
`occi.storagelink.deviceid` equal to dn and no error. -/
theorem StorageLinkBackend.create_device_overwrite (p : Platform) (l : Link)
    (i v dn : String)
    (hsrc : l.source.attributes.get1 "occi.core.id" = some i)
    (htgt : l.target.attributes.get1 "occi.core.id" = some v)
    (hreg : p.registryFound ("/compute/" ++ i) = true)
    (hatt : ∀ d, p.attach_volume i v d = dn) :
    (StorageLinkBackend.create p l).link.attributes.get1 "occi.storagelink.deviceid" =
      some dn ∧
    (StorageLinkBackend.create p l).error = none := by
  unfold StorageLinkBackend.create
  rw [hsrc, htgt]
  simp [hreg, hatt]

/-- Witness for C9: a different device id was requested, yet the platform
device name wins. -/
theorem StorageLinkBackend.create_device_overwrite_witness :
    (StorageLinkBackend.create okPlatform linkFixture).link.attributes.get1
      "occi.storagelink.deviceid" = some "/dev/vdb" ∧
    (StorageLinkBackend.create okPlatform linkFixture).error = none :=
  StorageLinkBackend.create_device_overwrite okPlatform linkFixture "i1" "v1" "/dev/vdb"
    (by decide) (by decide) (by decide) (fun _ => rfl)

/-- C10: a create call whose re-fetched status is neither error nor
available completes without error, sets `occi.core.id`, the identifier and
the four allowed actions, and leaves the `occi.storage.state` attribute
exactly as it was. -/
theorem StorageBackend.create_pending_status (p : Platform) (u : String) (e : Entity)
    (hsize : e.attributes.member "occi.storage.size" = true)
    (hne : (StorageBackend.createRefetched p u e).status ≠ "error")
    (hna : (StorageBackend.createRefetched p u e).status ≠ "available") :
    (StorageBackend.create p u e).error = none ∧
    (StorageBackend.create p u e).entity.attributes.get1 "occi.core.id" =
      some (StorageBackend.createVolId p u e) ∧
    (StorageBackend.create p u e).entity.identifier =
      STORAGE_location ++ StorageBackend.createVolId p u e ∧
    (StorageBackend.create p u e).entity.actions =
      [OcciAction.offline, OcciAction.backup, OcciAction.snapshot, OcciAction.resize] ∧
    (StorageBackend.create p u e).entity.attributes.get1 "occi.storage.state" =
      e.attributes.get1 "occi.storage.state" := by
  have hq : ("occi.storage.state" : String) ≠ "occi.core.id" := by decide
  unfold StorageBackend.create
  simp [hsize, hne, hna, Attributes.get1_set1_other _ _ _ _ hq]

/-- Witness for C10: status creating, prior state value survives. -/
theorem StorageBackend.create_pending_status_witness :
    (StorageBackend.create creatingPlatform "u0" statefulEntity).error = none ∧
    (StorageBackend.create creatingPlatform "u0" statefulEntity).entity.attributes.get1
      "occi.core.id" = some (StorageBackend.createVolId creatingPlatform "u0" statefulEntity) ∧
    (StorageBackend.create creatingPlatform "u0" statefulEntity).entity.identifier =
      STORAGE_location ++ StorageBackend.createVolId creatingPlatform "u0" statefulEntity ∧
    (StorageBackend.create creatingPlatform "u0" statefulEntity).entity.actions =
      [OcciAction.offline, OcciAction.backup, OcciAction.snapshot, OcciAction.resize] ∧
    (StorageBackend.create creatingPlatform "u0" statefulEntity).entity.attributes.get1
      "occi.storage.state" = statefulEntity.attributes.get1 "occi.storage.state" :=
  StorageBackend.create_pending_status creatingPlatform "u0" statefulEntity
    (by decide) (by decide) (by decide)
